import Mathlib

/-!
Shallow embedding of the risk-judgement and scenario-projection pipeline of
`src/app.py` (a streamlit app over two CSV tables).  Monetary amounts and
probabilities are modelled as rationals; pandas rows become structures with
optional fields for optionally-present columns; the per-entity detail block
(lines 75-178 of `src/app.py`) becomes a pure function producing a `Detail`
record.  Presentation-only formatting (currency strings, charts) is dropped;
the integer cast `int(bal)` is kept as truncation toward zero on rationals.
-/

namespace App

/-- Truncation toward zero of a rational, matching the `int(...)` cast of
Python on the value (Python truncates toward zero). `Int.div` is
truncating division. -/
def truncQ (q : ℚ) : ℤ := q.num.tdiv (q.den : ℤ)

/-- Leading-match test: does `p` occur at the head of `s`? Helper for the
substring test used by the search box. -/
def leadMatch : List Char → List Char → Bool
  | [], _ => true
  | _ :: _, [] => false
  | p :: ps, c :: cs => p == c && leadMatch ps cs

/-- Substring occurrence test on character lists: does `p` occur contiguously
somewhere in `s`?  Models pandas `.str.contains` (literal-pattern case). -/
def hasSub (p : List Char) : List Char → Bool
  | [] => leadMatch p []
  | c :: cs => leadMatch p (c :: cs) || hasSub p cs

/-- Substring test on strings. -/
def strContainsB (s pat : String) : Bool := hasSub pat.data s.data

/-- Rendering of an optionally-present cell through `astype(str)`: a missing
value renders as the string "nan" in pandas. -/
def optStr : Option String → String
  | some s => s
  | none => "nan"

/-- One row of `prediction_2024_extended.csv` (an EntityPrediction).
Optionally-present columns (`부족액_예상`, `부족액_실제`, and the business
registration number `사업자번호`) are `Option` fields. -/
structure PredRow where
  regNo : Option String
  name : String
  p_risk : ℚ
  p_normal : ℚ
  expected_shortfall : Option ℚ
  actual_shortfall : Option ℚ
  explanation : String
deriving DecidableEq, Repr

/-- One row of the historical CSV (a YearlyIndicatorRow), after the year
column has been normalized to an integer (first four characters parsed). -/
structure RawRow where
  regNo : String
  name : String
  year : ℤ
  reserve_amount : ℚ
  minimum_required_reserve : ℚ
  total_evaluated_reserve : ℚ
  continuing_basis_liability_reserve : ℚ
  contribution_paid_amount : ℚ
  contribution_assessed_amount : ℚ
deriving DecidableEq, Repr

/-- Binary verdict, the closed enumeration behind the 0/1 sentinel of the
source. -/
inductive Verdict where
  | RISK
  | NORMAL
deriving DecidableEq, Repr

/-- Three-valued classification of the shortfall delta. -/
inductive ComparisonResult where
  | ACTUAL_EXCEEDS_EXPECTED
  | ACTUAL_BELOW_EXPECTED
  | EQUAL
deriving DecidableEq, Repr

/-- Line 48 of `src/app.py`: `0 if r["p_risk"] >= 0.7 else 1`.  The source
encodes the verdict as the numeric sentinel 0 (risk) / 1 (normal). -/
def final_judgement (p_risk : ℚ) : ℕ := if p_risk ≥ 7/10 then 0 else 1

/-- Lines 87-90 of `src/app.py`: sentinel 0 is displayed as the RISK verdict,
anything else as NORMAL. -/
def verdictOf (j : ℕ) : Verdict := if j = 0 then .RISK else .NORMAL

/-- Lines 104-109 of `src/app.py`: classification of `diff`. -/
def classifyDelta (d : ℚ) : ComparisonResult :=
  if d > 0 then .ACTUAL_EXCEEDS_EXPECTED
  else if d < 0 then .ACTUAL_BELOW_EXPECTED
  else .EQUAL

/-- Line 103 together with 104-109: `diff = row["부족액_실제"] - row["부족액_예상"]`
and its classification, returned as a pair for display. -/
def compare (expected actual : ℚ) : ℚ × ComparisonResult :=
  (actual - expected, classifyDelta (actual - expected))

/-- Lines 121-125 of `src/app.py`: the fixed scenario table, each scenario
named and split into a principal-guaranteed amount and a non-principal
amount. -/
def scenarios (total : ℚ) : List (String × ℚ × ℚ) :=
  [("보수형 (원리금70%)", (total * (7/10), total * (3/10))),
   ("균형형 (50:50)", (total * (5/10), total * (5/10))),
   ("공격형 (비원리금70%)", (total * (3/10), total * (7/10)))]

/-- Line 127: `months = list(range(1, 13))`. -/
def months : List ℕ := List.range' 1 12

/-- Line 133: balance at month `m`,
`principal_amt * (1 + 0.05 / 12) ** m + non_principal_amt * (1 + 0.10 / 12) ** m`. -/
def balance (principal_amt non_principal_amt : ℚ) (m : ℕ) : ℚ :=
  principal_amt * (1 + (5/100) / 12) ^ m + non_principal_amt * (1 + (10/100) / 12) ^ m

/-- Lines 127-135: the monthly projection table.  Each scenario column holds
the twelve month-end balances, each passed through the `int(bal)` cast
(line 134); the currency formatting of the string is presentation only and
dropped here. -/
def projTable (total : ℚ) : List (String × List ℤ) :=
  (scenarios total).map
    (fun s => (s.1, months.map (fun m => truncQ (balance s.2.1 s.2.2 m))))

/-- Lines 164-167 of `src/app.py`: the historical lookup for the selected
entity.  When the `사업자번호` field is present on the row (even blank) the
raw table is filtered on equality with it; only when the field is absent
does the lookup fall back to exact name equality. -/
def firm_data (raw : List RawRow) (r : PredRow) : List RawRow :=
  match r.regNo with
  | some rn => raw.filter (fun x => x.regNo == rn)
  | none => raw.filter (fun x => x.name == r.name)

/-- One output point of the trend aggregation: the year and the three derived
ratios of lines 170-172. -/
structure TrendPoint where
  year : ℤ
  reserve_ratio : ℚ
  compliance_ratio : ℚ
  payment_fulfillment_ratio : ℚ
deriving DecidableEq, Repr

/-- Lines 170-172 of `src/app.py`: the three derived ratios
(`적립률`, `준수비율`, `납입이행률`) for one historical row. -/
def mkTrendPoint (x : RawRow) : TrendPoint :=
  { year := x.year
  , reserve_ratio := x.reserve_amount / x.minimum_required_reserve
  , compliance_ratio := x.total_evaluated_reserve / x.continuing_basis_liability_reserve
  , payment_fulfillment_ratio := x.contribution_paid_amount / x.contribution_assessed_amount }

/-- Lines 164-176: the full trend series for the selected entity, in the
order the matching rows appear in the raw table (the source applies no
sort). -/
def trendSeries (raw : List RawRow) (r : PredRow) : List TrendPoint :=
  (firm_data raw r).map mkTrendPoint

/-- The per-entity detail output of lines 75-178: verdict display, optional
shortfall comparison, optional rebalancing projection, optional explanation
lines, and the trend series.  `j` is the row's `final_judgement` sentinel. -/
structure Detail where
  verdict : Verdict
  comparison : Option (ℚ × ComparisonResult)
  projection : Option (List (String × List ℤ))
  explanation_lines : Option (List String)
  trend : List TrendPoint
deriving DecidableEq, Repr

/-- Lines 75-178 of `src/app.py` as a pure function of the selected row, its
judgement sentinel and the raw historical table.  The comparison runs only
under the column-presence test of line 95; the projection additionally
requires `row["부족액_예상"] > 0` (line 114) and sits inside the same
presence-guarded block; the explanation block runs for judgement 0 only
(lines 142-147). -/
def detail (raw : List RawRow) (r : PredRow) (j : ℕ) : Detail :=
  { verdict := verdictOf j
  , comparison :=
      match r.expected_shortfall, r.actual_shortfall with
      | some e, some a => some (compare e a)
      | _, _ => none
  , projection :=
      match r.expected_shortfall, r.actual_shortfall with
      | some e, some _ => if e > 0 then some (projTable e) else none
      | _, _ => none
  , explanation_lines :=
      if j = 0 then
        some (((r.explanation.splitOn " / ").map String.trim).filter (fun l => l ≠ ""))
      else none
  , trend := trendSeries raw r }

/-- Lines 34-42 of `src/app.py`: the search filter.  An empty search box is
falsy in Python, so the whole table passes through; otherwise a row is kept
when either identity column (rendered through `astype(str)`) contains the
query as a substring. -/
def search_filter (df : List PredRow) (company : String) : List PredRow :=
  if company = "" then df
  else df.filter
    (fun r => strContainsB (optStr r.regNo) company || strContainsB r.name company)

/-- Lines 47-61: the result table carries each row paired with its
`final_judgement` sentinel, optionally restricted to risk rows
(`final_judgement == 0`) by the checkbox. -/
def result_table (df : List PredRow) (company : String) (showRiskOnly : Bool) :
    List (PredRow × ℕ) :=
  let result := (search_filter df company).map (fun r => (r, final_judgement r.p_risk))
  if showRiskOnly then result.filter (fun x => x.2 == 0) else result

/-- Lines 75-76: the detail block runs only when the result table is
non-empty, and then on `result.iloc[0]`, its first row. -/
def app_detail (df : List PredRow) (company : String) (showRiskOnly : Bool)
    (raw : List RawRow) : Option Detail :=
  match result_table df company showRiskOnly with
  | [] => none
  | x :: _ => some (detail raw x.1 x.2)

/-- The spec's projection cell formula (§4.3), written from the spec's words:
`total_shortfall * fraction * (1 + annual_rate/12)^m` summed over the two
buckets and truncated toward zero. -/
def spec_cell (total fp fn : ℚ) (m : ℕ) : ℤ :=
  truncQ (total * fp * (1 + (5/100) / 12) ^ m + total * fn * (1 + (10/100) / 12) ^ m)

/-- The historical lookup as the claim states it, written from the spec's
words: the registration number is the key only when present and non-blank,
with fallback to exact name match otherwise. -/
def firm_data_claimed (raw : List RawRow) (r : PredRow) : List RawRow :=
  match r.regNo with
  | some rn =>
      if rn ≠ "" then raw.filter (fun x => x.regNo == rn)
      else raw.filter (fun x => x.name == r.name)
  | none => raw.filter (fun x => x.name == r.name)

/-- Helper: the threshold characterization of the displayed verdict, for any
rational probability whatsoever (the source performs no range check). -/
theorem judge_iff (p : ℚ) :
    (verdictOf (final_judgement p) = .RISK ↔ 7/10 ≤ p) ∧
    (verdictOf (final_judgement p) = .NORMAL ↔ p < 7/10) := by
  unfold verdictOf final_judgement
  by_cases h : (7:ℚ)/10 ≤ p
  · simp [h]
  · simp [h, lt_of_not_le h]

section SampleData

/-- Sample historical row used by concrete witnesses. -/
def rawYear (y : ℤ) : RawRow := ⟨"111", "A", y, 10, 4, 6, 3, 8, 2⟩

/-- Sample prediction row whose registration number matches `rawYear`. -/
def rowA : PredRow := ⟨some "111", "A", 1/2, 1/2, none, none, ""⟩

/-- Sample prediction row with a present-but-blank registration number. -/
def blankRegRow : PredRow := ⟨some "", "A", 1/2, 1/2, none, none, ""⟩

/-- Sample prediction row with a negative expected shortfall. -/
def rowNegShortfall : PredRow := ⟨some "1", "B", 1/2, 1/2, some (-5), some 3, ""⟩

/-- Two sample rows whose names both contain the letter A, for the search
filter witness. -/
def rowA1 : PredRow := ⟨some "10", "Alpha", 8/10, 2/10, none, none, ""⟩

/-- Second sample row matching the same search. -/
def rowA2 : PredRow := ⟨some "20", "Apple", 1/10, 9/10, none, none, ""⟩

end SampleData

/-- C1: for every probability in [0,1] the displayed verdict is RISK exactly
when `p_risk >= 0.70` and NORMAL otherwise; in particular the verdict at
0.70 is RISK and at 0.6999 is NORMAL. -/
theorem judgement_threshold (p : ℚ) (h0 : 0 ≤ p) (h1 : p ≤ 1) :
    ((verdictOf (final_judgement p) = .RISK ↔ 7/10 ≤ p) ∧
     (verdictOf (final_judgement p) = .NORMAL ↔ p < 7/10)) ∧
    verdictOf (final_judgement (70/100)) = .RISK ∧
    verdictOf (final_judgement (6999/10000)) = .NORMAL :=
  ⟨judge_iff p, (judge_iff _).1.mpr (by norm_num), (judge_iff _).2.mpr (by norm_num)⟩

/-- Witness for C1 at the boundary probability 0.70. -/
theorem judgement_threshold_witness :
    (0:ℚ) ≤ 7/10 ∧ (7:ℚ)/10 ≤ 1 ∧
    (((verdictOf (final_judgement (7/10)) = .RISK ↔ (7:ℚ)/10 ≤ 7/10) ∧
      (verdictOf (final_judgement (7/10)) = .NORMAL ↔ (7:ℚ)/10 < 7/10)) ∧
     verdictOf (final_judgement (70/100)) = .RISK ∧
     verdictOf (final_judgement (6999/10000)) = .NORMAL) :=
  ⟨by norm_num, by norm_num, judgement_threshold (7/10) (by norm_num) (by norm_num)⟩

/-- C2: for every positive shortfall the projection table is the three fixed
scenarios (0.70/0.30, 0.50/0.50, 0.30/0.70) over months 1..12, every cell
being the spec's compounded-balance formula truncated toward zero. -/
theorem projection_table_spec (total : ℚ) (h : 0 < total) :
    months = [1, 2, 3, 4, 5, 6, 7, 8, 9, 10, 11, 12] ∧
    (projTable total).length = 3 ∧
    (∀ s ∈ projTable total, s.2.length = 12) ∧
    projTable total =
      [("보수형 (원리금70%)", months.map (spec_cell total (7/10) (3/10))),
       ("균형형 (50:50)", months.map (spec_cell total (5/10) (5/10))),
       ("공격형 (비원리금70%)", months.map (spec_cell total (3/10) (7/10)))] := by
  refine ⟨rfl, rfl, ?_, rfl⟩
  intro s hs
  simp only [projTable, scenarios, List.map_cons, List.map_nil, List.mem_cons,
    List.not_mem_nil, or_false] at hs
  rcases hs with rfl | rfl | rfl <;> simp [months]

/-- Witness for C2 at a shortfall of 1,000,000. -/
theorem projection_table_spec_witness :
    (0:ℚ) < 1000000 ∧
    (months = [1, 2, 3, 4, 5, 6, 7, 8, 9, 10, 11, 12] ∧
     (projTable 1000000).length = 3 ∧
     (∀ s ∈ projTable 1000000, s.2.length = 12) ∧
     projTable 1000000 =
       [("보수형 (원리금70%)", months.map (spec_cell 1000000 (7/10) (3/10))),
        ("균형형 (50:50)", months.map (spec_cell 1000000 (5/10) (5/10))),
        ("공격형 (비원리금70%)", months.map (spec_cell 1000000 (3/10) (7/10)))]) :=
  ⟨by norm_num, projection_table_spec 1000000 (by norm_num)⟩

/-- C3: the comparator returns `delta = actual - expected`, classified as
ACTUAL_EXCEEDS_EXPECTED iff delta > 0, ACTUAL_BELOW_EXPECTED iff delta < 0,
and EQUAL iff delta = 0. -/
theorem compare_spec (expected actual : ℚ) :
    (compare expected actual).1 = actual - expected ∧
    ((compare expected actual).2 = .ACTUAL_EXCEEDS_EXPECTED ↔ 0 < actual - expected) ∧
    ((compare expected actual).2 = .ACTUAL_BELOW_EXPECTED ↔ actual - expected < 0) ∧
    ((compare expected actual).2 = .EQUAL ↔ actual - expected = 0) := by
  unfold compare classifyDelta
  rcases lt_trichotomy (actual - expected) 0 with h | h | h
  · simp [h, not_lt_of_lt h, ne_of_lt h]
  · simp [h]
  · simp [h, not_lt_of_lt h, ne_of_gt h]

/-- C4 counterexample: with matching historical rows appearing in year order
[2016, 2014, 2015], the emitted series keeps that order — it is not sorted
ascending as the claim states. -/
theorem trend_order_counterexample :
    (trendSeries [rawYear 2016, rawYear 2014, rawYear 2015] rowA).map TrendPoint.year
      = [2016, 2014, 2015] ∧
    (trendSeries [rawYear 2016, rawYear 2014, rawYear 2015] rowA).map TrendPoint.year
      ≠ [2014, 2015, 2016] := by
  constructor <;> decide

/-- C4 amended: the aggregator emits one point per matching row in the raw
table's own row order (a sublist of the input order); no sort by year is
applied. -/
theorem trend_order_amended (raw : List RawRow) (r : PredRow) :
    (trendSeries raw r).map TrendPoint.year = (firm_data raw r).map RawRow.year ∧
    List.Sublist ((trendSeries raw r).map TrendPoint.year) (raw.map RawRow.year) := by
  have h1 : (trendSeries raw r).map TrendPoint.year = (firm_data raw r).map RawRow.year := by
    unfold trendSeries
    rw [List.map_map]
    rfl
  refine ⟨h1, ?_⟩
  rw [h1]
  unfold firm_data
  cases r.regNo with
  | some rn => exact (List.filter_sublist raw).map _
  | none => exact (List.filter_sublist raw).map _

/-- C5: every emitted trend point carries exactly the three ratios
reserve/minimum-required, evaluated/continuing-liability, paid/assessed of
some matching historical row. -/
theorem trend_ratios (raw : List RawRow) (r : PredRow) (tp : TrendPoint)
    (h : tp ∈ trendSeries raw r) :
    ∃ x ∈ firm_data raw r,
      tp.year = x.year ∧
      tp.reserve_ratio = x.reserve_amount / x.minimum_required_reserve ∧
      tp.compliance_ratio = x.total_evaluated_reserve / x.continuing_basis_liability_reserve ∧
      tp.payment_fulfillment_ratio =
        x.contribution_paid_amount / x.contribution_assessed_amount := by
  unfold trendSeries at h
  rcases List.mem_map.mp h with ⟨x, hx, rfl⟩
  exact ⟨x, hx, rfl, rfl, rfl, rfl⟩

/-- Witness for C5 on a concrete one-row history. -/
theorem trend_ratios_witness :
    ∃ x ∈ firm_data [rawYear 2020] rowA,
      (mkTrendPoint (rawYear 2020)).year = x.year ∧
      (mkTrendPoint (rawYear 2020)).reserve_ratio
        = x.reserve_amount / x.minimum_required_reserve ∧
      (mkTrendPoint (rawYear 2020)).compliance_ratio
        = x.total_evaluated_reserve / x.continuing_basis_liability_reserve ∧
      (mkTrendPoint (rawYear 2020)).payment_fulfillment_ratio
        = x.contribution_paid_amount / x.contribution_assessed_amount :=
  trend_ratios [rawYear 2020] rowA (mkTrendPoint (rawYear 2020))
    (by
      have h : trendSeries [rawYear 2020] rowA = [mkTrendPoint (rawYear 2020)] := rfl
      rw [h]
      exact List.mem_singleton.mpr rfl)

/-- C6: a projection is produced only when the expected shortfall is present
and strictly positive; zero, negative or absent expected shortfalls yield
no projection. -/
theorem projection_gate (raw : List RawRow) (r : PredRow) (j : ℕ) :
    ((detail raw r j).projection ≠ none →
      ∃ e, r.expected_shortfall = some e ∧ 0 < e) ∧
    (∀ e, r.expected_shortfall = some e → e ≤ 0 → (detail raw r j).projection = none) ∧
    (r.expected_shortfall = none → (detail raw r j).projection = none) := by
  unfold detail
  rcases he : r.expected_shortfall with _ | e
  · simp
  · rcases ha : r.actual_shortfall with _ | a
    · simp
    · by_cases hpos : e > 0
      · simp [hpos]
      · simp [hpos]

/-- Witness for C6: a negative expected shortfall yields no projection. -/
theorem projection_gate_witness :
    (detail [] rowNegShortfall 1).projection = none :=
  (projection_gate [] rowNegShortfall 1).2.1 (-5) rfl (by norm_num)

/-- C7: the shortfall comparison is produced exactly when both shortfall
fields are present; when it is skipped the verdict and the trend series
are still produced unchanged. -/
theorem comparison_gate (raw : List RawRow) (r : PredRow) (j : ℕ) :
    ((detail raw r j).comparison.isSome ↔
      (r.expected_shortfall.isSome ∧ r.actual_shortfall.isSome)) ∧
    (detail raw r j).verdict = verdictOf j ∧
    (detail raw r j).trend = trendSeries raw r := by
  refine ⟨?_, rfl, rfl⟩
  unfold detail
  rcases r.expected_shortfall with _ | e <;> rcases r.actual_shortfall with _ | a <;> simp

/-- C8 counterexample: with a present-but-blank registration number the code
keys the lookup on the blank number (finding nothing), while the claimed
rule would fall back to the name and find the row. -/
theorem lookup_key_counterexample :
    firm_data [rawYear 2020] blankRegRow = [] ∧
    firm_data_claimed [rawYear 2020] blankRegRow = [rawYear 2020] ∧
    firm_data [rawYear 2020] blankRegRow ≠ firm_data_claimed [rawYear 2020] blankRegRow := by
  refine ⟨?_, ?_, ?_⟩ <;> decide

/-- C8 amended: the lookup keys on the registration number whenever the field
is present — even when blank — and falls back to exact name match only when
the field is absent. -/
theorem lookup_key_amended (raw : List RawRow) (r : PredRow) (x : RawRow) :
    (∀ rn, r.regNo = some rn → (x ∈ firm_data raw r ↔ x ∈ raw ∧ x.regNo = rn)) ∧
    (r.regNo = none → (x ∈ firm_data raw r ↔ x ∈ raw ∧ x.name = r.name)) := by
  constructor
  · intro rn hrn
    unfold firm_data
    rw [hrn]
    simp [List.mem_filter]
  · intro hrn
    unfold firm_data
    rw [hrn]
    simp [List.mem_filter]

/-- Witness for C8's amended rule: a blank-but-present registration number is
still used as the key. -/
theorem lookup_key_amended_witness :
    rawYear 2020 ∈ firm_data [rawYear 2020] blankRegRow ↔
      rawYear 2020 ∈ [rawYear 2020] ∧ (rawYear 2020).regNo = "" :=
  (lookup_key_amended [rawYear 2020] blankRegRow (rawYear 2020)).1 "" rfl

/-- C9 counterexample: probabilities outside [0,1] are not rejected — the
judgement still returns a verdict (RISK at 2, NORMAL at -1). -/
theorem judge_out_of_range_counterexample :
    verdictOf (final_judgement 2) = Verdict.RISK ∧
    verdictOf (final_judgement (-1)) = Verdict.NORMAL :=
  ⟨(judge_iff 2).1.mpr (by norm_num), (judge_iff (-1)).2.mpr (by norm_num)⟩

/-- C9 amended: the judgement performs no range validation; for any
probability outside [0,1] it still returns a verdict by the unchanged
threshold rule. -/
theorem judge_no_validation (p : ℚ) (h : p < 0 ∨ 1 < p) :
    (verdictOf (final_judgement p) = .RISK ↔ 7/10 ≤ p) ∧
    (verdictOf (final_judgement p) = .NORMAL ↔ p < 7/10) :=
  judge_iff p

/-- Witness for C9's amended rule at probability 2. -/
theorem judge_no_validation_witness :
    ((2:ℚ) < 0 ∨ (1:ℚ) < 2) ∧
    ((verdictOf (final_judgement 2) = .RISK ↔ (7:ℚ)/10 ≤ 2) ∧
     (verdictOf (final_judgement 2) = .NORMAL ↔ (2:ℚ) < 7/10)) :=
  ⟨Or.inr (by norm_num), judge_no_validation 2 (Or.inr (by norm_num))⟩

/-- C10: whenever the result table is non-empty the detail pipeline is applied
to exactly its first row; every later row is ignored by the detail output. -/
theorem detail_first_row_only (df : List PredRow) (company : String)
    (showRiskOnly : Bool) (raw : List RawRow) (x : PredRow × ℕ)
    (rest : List (PredRow × ℕ))
    (h : result_table df company showRiskOnly = x :: rest) :
    app_detail df company showRiskOnly raw = some (detail raw x.1 x.2) := by
  unfold app_detail
  rw [h]

/-- Witness for C10: a search matching two rows evaluates only the first in
detail. -/
theorem detail_first_row_only_witness :
    result_table [rowA1, rowA2] "A" false = [(rowA1, 0), (rowA2, 1)] ∧
    app_detail [rowA1, rowA2] "A" false [] = some (detail [] rowA1 0) := by
  have hs : search_filter [rowA1, rowA2] "A" = [rowA1, rowA2] := rfl
  have h1 : final_judgement rowA1.p_risk = 0 := by norm_num [final_judgement, rowA1]
  have h2 : final_judgement rowA2.p_risk = 1 := by norm_num [final_judgement, rowA2]
  have ht : result_table [rowA1, rowA2] "A" false = [(rowA1, 0), (rowA2, 1)] := by
    simp [result_table, hs, h1, h2]
  exact ⟨ht, detail_first_row_only [rowA1, rowA2] "A" false [] (rowA1, 0) [(rowA2, 1)] ht⟩

end App
